import Mathlib

/-!
Shallow embedding of the ACA 1095-C interim builder and PDF filler
(`interim_core.py`, `pdf_filler_core.py`, `app.py`).

Conventions of the embedding:

* Calendar dates are triples `(y, m, d)` compared lexicographically; this
  matches pandas `Timestamp` ordering on valid Gregorian dates.
* A pandas nullable date cell is `Option Date`: `none` stands for `NaT`,
  which arises both from a missing cell and from `pd.to_datetime(_,
  errors="coerce")` on an unparsable value.  Comparisons against `NaT` are
  always false, which `optDateLe` / `optDateGe` encode.
* A nullable string cell is `Option String` (`none` = `NaN`).  pandas
  `.astype(str)` turns `NaN` into the literal string `"nan"`, encoded by
  `pyStr`.
* Spreadsheet/PDF I/O is an external collaborator: the builder takes the
  three parsed tables instead of `excel_bytes`, and the PDF filler returns
  the list of `(field name, value)` write operations it would perform on
  the form instead of document bytes.
-/

/-- A calendar date.  pandas timestamps are modelled by their
`(year, month, day)` components. -/
structure Date where
  y : Nat
  m : Nat
  d : Nat
deriving DecidableEq, Repr

/-- Lexicographic order on dates, matching timestamp order. -/
def dateLe (a b : Date) : Bool :=
  a.y < b.y || (a.y == b.y && (a.m < b.m || (a.m == b.m && a.d ≤ b.d)))

/-- `NaT <= t` is false in pandas; a present date compares normally. -/
def optDateLe (a : Option Date) (b : Date) : Bool :=
  match a with
  | none => false
  | some x => dateLe x b

/-- `NaT >= t` is false in pandas; a present date compares normally. -/
def optDateGe (a : Option Date) (b : Date) : Bool :=
  match a with
  | none => false
  | some x => dateLe b x

/-- `pd.Timestamp("2262-04-11")`, the sentinel used by
`build_interim_from_excel` for missing end dates. -/
def far_future : Date := ⟨2262, 4, 11⟩

/-- Gregorian leap-year rule (as used by pandas timestamps). -/
def isLeapYear (y : Nat) : Bool :=
  y % 4 == 0 && (y % 100 != 0 || y % 400 == 0)

/-- Number of days in month `m` of year `y`; models
`month_start + pd.offsets.MonthEnd(1)` landing on the month's last day. -/
def daysInMonth (y m : Nat) : Nat :=
  if m == 2 then (if isLeapYear y then 29 else 28)
  else if m == 4 || m == 6 || m == 9 || m == 11 then 30
  else 31

/-- First calendar day of month `m` of year `y` (entry of the
`pd.date_range(freq="MS")` month list). -/
def month_first (y m : Nat) : Date := ⟨y, m, 1⟩

/-- Last calendar day of month `m` of year `y`
(`month_start + pd.offsets.MonthEnd(1)`). -/
def month_last (y m : Nat) : Date := ⟨y, m, daysInMonth y m⟩

/-- pandas `.astype(str)` on a nullable string cell: `NaN` prints as
`"nan"`. -/
def pyStr (o : Option String) : String :=
  match o with
  | none => "nan"
  | some s => s

/-- Substring test on character lists (`needle` occurs inside `hay`). -/
def charsContain (needle : List Char) : List Char → Bool
  | [] => needle == []
  | c :: t => needle.isPrefixOf (c :: t) || charsContain needle t

/-- Python `str.lower()`. -/
def py_lower (s : String) : String :=
  String.mk (s.toList.map Char.toLower)

/-- Python `str.strip()`: whitespace removed from both ends. -/
def py_strip (s : String) : String :=
  String.mk
    (((s.toList.dropWhile Char.isWhitespace).reverse.dropWhile
      Char.isWhitespace).reverse)

/-- Python `str.replace(pat, rep)`: all non-overlapping occurrences,
left to right.  An empty pattern leaves the string unchanged (never the
case in the source). -/
def replaceCharsGo (pat rep : List Char) : Nat → List Char → List Char
  | _, [] => []
  | 0, l => l
  | fuel + 1, c :: t =>
    if pat.isPrefixOf (c :: t) && !pat.isEmpty then
      rep ++ replaceCharsGo pat rep fuel (t.drop (pat.length - 1))
    else c :: replaceCharsGo pat rep fuel t

/-- Fuelled driver for `replaceCharsGo`; the fuel (one unit per consumed
character) never runs out. -/
def replaceChars (pat rep l : List Char) : List Char :=
  replaceCharsGo pat rep l.length l

/-- Python `str.replace` on strings. -/
def py_replace (s pat rep : String) : String :=
  String.mk (replaceChars pat.toList rep.toList s.toList)

/-- Python `str.split(".")[0]`: the prefix before the first dot. -/
def py_split_dot_head (s : String) : String :=
  String.mk (s.toList.takeWhile (fun c => !(c == '.')))

/-- Case-insensitive substring test, modelling
`Series.str.contains(pat, case=False)`. -/
def strContainsCI (s pat : String) : Bool :=
  charsContain (py_lower pat).toList (py_lower s).toList

/-- A row of the `Emp Eligibility` sheet after column normalization and
date coercion: `EmployeeID`, `EligiblePlan`, `EligibleTier`,
`EligibilityStartDate`, `EligibilityEndDate`. -/
structure EligRow where
  employeeId : Int
  plan : Option String
  tier : Option String
  start : Option Date
  stop : Option Date
deriving DecidableEq, Repr

/-- A row of the `Emp Enrollment` sheet after column normalization and
date coercion: `EmployeeID`, `PlanCode`, `Tier`, `EnrollmentStartDate`,
`EnrollmentEndDate`. -/
structure EnrRow where
  employeeId : Int
  plan : Option String
  tier : Option String
  start : Option Date
  stop : Option Date
deriving DecidableEq, Repr

/-- A row of the `Emp Demographic` sheet restricted to the columns
`build_interim_from_excel` selects into `emp_df`. -/
structure Emp where
  employeeId : Int
  firstName : Option String
  middleInitial : Option String
  lastName : Option String
  role : Option String
  statusStart : Option Date
  statusStop : Option Date
deriving DecidableEq, Repr

/-- One output record of `build_interim_from_excel`. -/
structure InterimRow where
  employeeId : Int
  name : String
  month : String
  isEmployedFullMonth : String
  isFullTimeFullMonth : String
  isPartTimeFullMonth : String
  eligible_mv : Bool
  employee_eligible : Bool
  spouse_eligible : Bool
  child_eligible : Bool
  employee_enrolled : Bool
  spouse_enrolled : Bool
  child_enrolled : Bool
deriving DecidableEq, Repr

/-- `eligibility_df["EligibilityEndDate"].fillna(far_future)`. -/
def fillnaElig (r : EligRow) : EligRow :=
  { r with stop := some (r.stop.getD far_future) }

/-- `enrollment_df["EnrollmentEndDate"].fillna(far_future)`. -/
def fillnaEnr (r : EnrRow) : EnrRow :=
  { r with stop := some (r.stop.getD far_future) }

/-- `demographic_df["StatusEndDate"].fillna(far_future)`. -/
def fillnaEmp (e : Emp) : Emp :=
  { e with statusStop := some (e.statusStop.getD far_future) }

/-- `col.astype(str).str.contains("Waive", case=False, na=False)`. -/
def waived_plan (p : Option String) : Bool :=
  strContainsCI (pyStr p) "Waive"

/-- The exclude-waived filter on the eligibility table. -/
def drop_waived_elig (rows : List EligRow) : List EligRow :=
  rows.filter (fun r => !(waived_plan r.plan))

/-- The exclude-waived filter on the enrollment table. -/
def drop_waived_enr (rows : List EnrRow) : List EnrRow :=
  rows.filter (fun r => !(waived_plan r.plan))

/-- End-date fill then optional waived filter, in source order. -/
def prep_eligs (exclude_waived : Bool) (rows : List EligRow) : List EligRow :=
  let rows := rows.map fillnaElig
  if exclude_waived then drop_waived_elig rows else rows

/-- End-date fill then optional waived filter, in source order. -/
def prep_enrs (exclude_waived : Bool) (rows : List EnrRow) : List EnrRow :=
  let rows := rows.map fillnaEnr
  if exclude_waived then drop_waived_enr rows else rows

/-- The eligibility row filter of the builder's month loop (the Temporal
Interval Matcher): employee match, `EligibilityStartDate <= month_end`,
`EligibilityEndDate >= month_start`. -/
def overlapping_elig (rows : List EligRow) (employeeId : Int)
    (month_start month_end : Date) : List EligRow :=
  rows.filter (fun r =>
    r.employeeId == employeeId &&
    optDateLe r.start month_end &&
    optDateGe r.stop month_start)

/-- The enrollment row filter of the builder's month loop. -/
def overlapping_enr (rows : List EnrRow) (employeeId : Int)
    (month_start month_end : Date) : List EnrRow :=
  rows.filter (fun r =>
    r.employeeId == employeeId &&
    optDateLe r.start month_end &&
    optDateGe r.stop month_start)

/-- `set(elig_rows["EligiblePlan"].astype(str))`, as the underlying value
list (set operations are expressed over it). -/
def elig_plans (rows : List EligRow) : List String :=
  rows.map (fun r => pyStr r.plan)

/-- `set(elig_rows["EligibleTier"].astype(str))`, as the value list. -/
def elig_tiers (rows : List EligRow) : List String :=
  rows.map (fun r => pyStr r.tier)

/-- `set(enroll_rows["Tier"].dropna().astype(str))`, as the value list. -/
def enr_tiers (rows : List EnrRow) : List String :=
  rows.filterMap (fun r => r.tier)

/-- `all_plans == {"PlanA"} and all_tiers & {"EMPFAM","EMP","EMPCHILD","EMPSPOUSE"}`
guarded by `not elig_rows.empty`. -/
def eligible_mv_flag (rows : List EligRow) : Bool :=
  !rows.isEmpty &&
  (elig_plans rows).all (fun p => p == "PlanA") &&
  (elig_tiers rows).any (fun t =>
    t == "EMPFAM" || t == "EMP" || t == "EMPCHILD" || t == "EMPSPOUSE")

/-- `all_tiers & {"EMP","EMPFAM","EMPSPOUSE"}` guarded by nonempty rows. -/
def employee_eligible_flag (rows : List EligRow) : Bool :=
  !rows.isEmpty &&
  (elig_tiers rows).any (fun t => t == "EMP" || t == "EMPFAM" || t == "EMPSPOUSE")

/-- `all_tiers & {"EMPFAM","EMPSPOUSE"}` guarded by nonempty rows. -/
def spouse_eligible_flag (rows : List EligRow) : Bool :=
  !rows.isEmpty &&
  (elig_tiers rows).any (fun t => t == "EMPFAM" || t == "EMPSPOUSE")

/-- `"EMPFAM" in all_tiers` guarded by nonempty rows. -/
def child_eligible_flag (rows : List EligRow) : Bool :=
  !rows.isEmpty && (elig_tiers rows).any (fun t => t == "EMPFAM")

/-- `all_tiers_enr & {"EMP","EMPFAM","EMPSPOUSE"}` guarded by nonempty rows. -/
def employee_enrolled_flag (rows : List EnrRow) : Bool :=
  !rows.isEmpty &&
  (enr_tiers rows).any (fun t => t == "EMP" || t == "EMPFAM" || t == "EMPSPOUSE")

/-- `all_tiers_enr & {"EMPFAM","EMPSPOUSE"}` guarded by nonempty rows. -/
def spouse_enrolled_flag (rows : List EnrRow) : Bool :=
  !rows.isEmpty &&
  (enr_tiers rows).any (fun t => t == "EMPFAM" || t == "EMPSPOUSE")

/-- `"EMPFAM" in all_tiers_enr` guarded by nonempty rows. -/
def child_enrolled_flag (rows : List EnrRow) : Bool :=
  !rows.isEmpty && (enr_tiers rows).any (fun t => t == "EMPFAM")

/-- The `Name` column: first, middle initial and last joined by spaces,
doubled spaces collapsed once, ends trimmed. -/
def build_name (e : Emp) : String :=
  py_strip (py_replace (e.firstName.getD "" ++ " " ++ e.middleInitial.getD "" ++ " " ++
    e.lastName.getD "") "  " " ")

/-- `month_start.strftime("%b")` for the month list of a given year. -/
def month_abbrev (m : Nat) : String :=
  match m with
  | 1 => "Jan" | 2 => "Feb" | 3 => "Mar" | 4 => "Apr"
  | 5 => "May" | 6 => "Jun" | 7 => "Jul" | 8 => "Aug"
  | 9 => "Sep" | 10 => "Oct" | 11 => "Nov" | 12 => "Dec"
  | _ => ""

/-- The month numbers of `pd.date_range(f"{year}-01-01", f"{year}-12-31",
freq="MS")`, January through December. -/
def monthsList : List Nat := [1, 2, 3, 4, 5, 6, 7, 8, 9, 10, 11, 12]

/-- The body of the builder's inner loop for one employee (already
end-date-filled) and one month: the emitted interim record. -/
def mkRow (eligs : List EligRow) (enrs : List EnrRow) (year : Nat)
    (e : Emp) (m : Nat) : InterimRow :=
  let month_start := month_first year m
  let month_end := month_last year m
  let employed_full_month :=
    optDateLe e.statusStart month_start && optDateGe e.statusStop month_end
  let is_full_time := e.role == some "FT" && employed_full_month
  let is_part_time := e.role == some "PT" && employed_full_month
  let elig_rows := overlapping_elig eligs e.employeeId month_start month_end
  let enroll_rows := overlapping_enr enrs e.employeeId month_start month_end
  { employeeId := e.employeeId
    name := build_name e
    month := month_abbrev m
    isEmployedFullMonth := if employed_full_month then "Yes" else "No"
    isFullTimeFullMonth := if is_full_time then "Yes" else "No"
    isPartTimeFullMonth := if is_part_time then "Yes" else "No"
    eligible_mv := eligible_mv_flag elig_rows
    employee_eligible := employee_eligible_flag elig_rows
    spouse_eligible := spouse_eligible_flag elig_rows
    child_eligible := child_eligible_flag elig_rows
    employee_enrolled := employee_enrolled_flag enroll_rows
    spouse_enrolled := spouse_enrolled_flag enroll_rows
    child_enrolled := child_enrolled_flag enroll_rows }

/-- `build_interim_from_excel`, over the already-parsed tables (the Excel
reader is an external collaborator).  Date coercion happened when the
tables were parsed into `Option Date` cells; the function applies the
end-date fill, the optional waived filter, and the employee × month
double loop. -/
def build_interim_from_excel (emps : List Emp) (eligs : List EligRow)
    (enrs : List EnrRow) (year : Nat) (exclude_waived : Bool) :
    List InterimRow :=
  let eligs := prep_eligs exclude_waived eligs
  let enrs := prep_enrs exclude_waived enrs
  (emps.map fillnaEmp).flatMap (fun e => monthsList.map (mkRow eligs enrs year e))

/-- The canonical month labels of the PDF side (`MONTHS` in both
`pdf_filler_core.py` and the PDF half of `interim_core.py`). -/
def MONTHS : List String :=
  ["Jan", "Feb", "Mar", "Apr", "May", "June", "July", "Aug",
   "Sept", "Oct", "Nov", "Dec"]

/-- `MONTH_ALIASES`, in source order. -/
def MONTH_ALIASES : List (String × String) :=
  [("Jan", "Jan"), ("January", "Jan"),
   ("Feb", "Feb"), ("February", "Feb"),
   ("Mar", "Mar"), ("March", "Mar"),
   ("Apr", "Apr"), ("April", "Apr"),
   ("May", "May"),
   ("Jun", "June"), ("June", "June"),
   ("Jul", "July"), ("July", "July"),
   ("Aug", "Aug"), ("August", "Aug"),
   ("Sep", "Sept"), ("Sept", "Sept"), ("September", "Sept"),
   ("Oct", "Oct"), ("October", "Oct"),
   ("Nov", "Nov"), ("November", "Nov"),
   ("Dec", "Dec"), ("December", "Dec")]

/-- `month_to_canonical`: strip, then alias lookup with the label itself
as fallback. -/
def month_to_canonical (m : String) : String :=
  let m := py_strip m
  (MONTH_ALIASES.lookup m).getD m

/-- Python truthiness of an optional code: `None` and `""` are falsy. -/
def pyTruthy (o : Option String) : Bool :=
  match o with
  | none => false
  | some s => s != ""

/-- `v and str(v).strip()`: keep a value iff present and not
whitespace-only. -/
def py_nonblank (o : Option String) : Bool :=
  match o with
  | none => false
  | some s => !(py_strip s == "")

/-- `all_12_same`: the 12 monthly values, blanks removed; the common code
when exactly 12 survive and they are all identical, else `None`. -/
def all_12_same (codes_by_month : String → Option String) : Option String :=
  let vals := ((MONTHS.map codes_by_month).filter py_nonblank).filterMap id
  match vals with
  | [] => none
  | v :: rest => if rest.length == 11 && rest.all (fun x => x == v) then some v else none

/-- `set_form_text` as its effect on the form: one write, skipped when the
field name is falsy (empty). -/
def set_form_text (field_name : String) (value : String) : List (String × String) :=
  if field_name == "" then [] else [(field_name, value)]

/-- `set_field` of `pdf_filler_core.py`: additionally skipped when the
value is `None`. -/
def set_field (field_name : String) (value : Option String) : List (String × String) :=
  match value with
  | none => []
  | some v => if field_name == "" then [] else [(field_name, v)]

/-- A field map: section name → (key → form-field name), as nested
association lists (the JSON dict of dicts). -/
abbrev FieldMap := List (String × List (String × String))

/-- `fill_line_codes` (identical in both source files, `set_field` and
`set_form_text` coinciding on string values): the writes made for one line
section. -/
def fill_line_codes (fieldmap : FieldMap)
    (codes_by_month : String → Option String) (which : String) :
    List (String × String) :=
  let sect := (fieldmap.lookup which).getD []
  if sect.isEmpty then []
  else
    let same := all_12_same codes_by_month
    if pyTruthy same && (sect.lookup "all").isSome then
      set_form_text ((sect.lookup "all").getD "") (same.getD "") ++
      MONTHS.flatMap (fun m =>
        match sect.lookup m with
        | some f => set_form_text f ""
        | none => [])
    else
      MONTHS.flatMap (fun m =>
        match sect.lookup m with
        | some f => set_form_text f ((codes_by_month m).getD "")
        | none => [])

/-- A row of the monthly line-code summary (`Employee_ID`, `Month`,
`line_14`, `line_16`); `employeeId` is `none` where
`pd.to_numeric(_, errors="coerce")` produced a null. -/
structure SummaryRow where
  employeeId : Option Int
  month : String
  line14 : Option String
  line16 : Option String
deriving DecidableEq, Repr

/-- `r.get(col_name)` on a summary row. -/
def getSummaryCol (r : SummaryRow) (col_name : String) : Option String :=
  if col_name == "line_14" then r.line14
  else if col_name == "line_16" then r.line16
  else none

/-- `line_dict_from_block`: start from all-months-`None`, then assign each
row's code to its canonicalized month, skipping labels outside `MONTHS`. -/
def line_dict_from_block (block : List SummaryRow) (col_name : String) :
    String → Option String :=
  block.foldl (fun out r =>
    let mo := month_to_canonical r.month
    if MONTHS.contains mo then
      (fun m => if m == mo then getSummaryCol r col_name else out m)
    else out)
    (fun _ => none)

/-- Position of a label in a list (first match), 0 past the end. -/
def list_index (x : String) : List String → Nat
  | [] => 0
  | y :: t => if y == x then 0 else 1 + list_index x t

/-- The `__midx` sort key: `MONTHS.index(str(x)) if str(x) in MONTHS
else 0`. -/
def month_index (x : String) : Nat :=
  if MONTHS.contains x then list_index x MONTHS else 0

/-- Stable insertion into a list sorted by `__midx` (ties keep their
original order; `sort_values`' tie order is unspecified, modelled as
stable). -/
def insert_by_midx (r : SummaryRow) : List SummaryRow → List SummaryRow
  | [] => [r]
  | s :: t =>
    if month_index s.month < month_index r.month then s :: insert_by_midx r t
    else r :: s :: t

/-- `block.sort_values(["__midx"])`. -/
def sort_by_midx (rows : List SummaryRow) : List SummaryRow :=
  rows.foldr insert_by_midx []

/-- A demographic row as read back for Part I
(`derive_part1_values`' source columns; `EmployeeID` numeric-coerced). -/
structure DemoRow where
  employeeId : Option Int
  firstName : Option String
  middleInitial : Option String
  lastName : Option String
  ssn : Option String
  addressLine1 : Option String
  city : Option String
  state : Option String
  zipCode : Option String
  country : Option String
  employerName : Option String
  ein : Option String
  employerAddress : Option String
  employerCity : Option String
  employerState : Option String
  employerZip : Option String
  employerCountry : Option String
  contactTelephone : Option String
deriving DecidableEq, Repr

/-- The 17 Part I targets, all `None`
(`derive_part1_values_from_demo_row` of `interim_core.py`). -/
def derive_part1_values_from_demo_row : List (String × Option String) :=
  [("employee_first", none), ("employee_middle", none), ("employee_last", none),
   ("employee_ssn", none), ("employee_addr1", none), ("employee_city", none),
   ("employee_state", none), ("employee_zip", none), ("employee_country", none),
   ("employer_name", none), ("employer_ein", none), ("employer_addr1", none),
   ("employer_city", none), ("employer_state", none), ("employer_zip", none),
   ("employer_country", none), ("employer_phone", none)]

/-- `derive_part1_values` of `pdf_filler_core.py`: first non-null value
per column for the employee's rows, stripped; SSN separators removed; ZIP
truncated at the decimal point. -/
def derive_part1_values (emp_id : Int) (demo_df : Option (List DemoRow)) :
    List (String × Option String) :=
  match demo_df with
  | none => derive_part1_values_from_demo_row
  | some rows =>
    let g := rows.filter (fun r => r.employeeId == some emp_id)
    if g.isEmpty then derive_part1_values_from_demo_row
    else
      let pick := fun (col : DemoRow → Option String) =>
        ((g.filterMap col).map py_strip).head?
      let ssn0 := pick (fun r => r.ssn)
      let ssn := match ssn0 with
        | some s => if s != "" then some (py_replace (py_replace s "-" "") " " "") else ssn0
        | none => none
      let zipf := fun (o : Option String) =>
        o.map py_split_dot_head
      [("employee_first", pick (fun r => r.firstName)),
       ("employee_middle", pick (fun r => r.middleInitial)),
       ("employee_last", pick (fun r => r.lastName)),
       ("employee_ssn", ssn),
       ("employee_addr1", pick (fun r => r.addressLine1)),
       ("employee_city", pick (fun r => r.city)),
       ("employee_state", pick (fun r => r.state)),
       ("employee_zip", zipf (pick (fun r => r.zipCode))),
       ("employee_country", pick (fun r => r.country)),
       ("employer_name", pick (fun r => r.employerName)),
       ("employer_ein", pick (fun r => r.ein)),
       ("employer_addr1", pick (fun r => r.employerAddress)),
       ("employer_city", pick (fun r => r.employerCity)),
       ("employer_state", pick (fun r => r.employerState)),
       ("employer_zip", zipf (pick (fun r => r.employerZip))),
       ("employer_country", pick (fun r => r.employerCountry)),
       ("employer_phone", pick (fun r => r.contactTelephone))]

/-- `fill_part1` of `interim_core.py`: skipped wholesale for an empty or
missing `part1` section, else one guarded write per supplied value. -/
def fill_part1 (fieldmap : FieldMap) (vals : List (String × Option String)) :
    List (String × String) :=
  let p1 := (fieldmap.lookup "part1").getD []
  if p1.isEmpty then []
  else vals.flatMap (fun kv =>
    match p1.lookup kv.1, kv.2 with
    | some f, some v => set_form_text f v
    | _, _ => [])

/-- `fill_one_employee_pdf_bytes` of `interim_core.py`, as the writes it
performs (the template read and byte serialization are external):
raises when the employee has no summary rows. -/
def fill_one_employee_pdf_bytes (emp_id : Int)
    (monthly_summary : List SummaryRow) (fieldmap : FieldMap)
    (plan_start_month : Option String) :
    Except String (List (String × String)) :=
  let block := monthly_summary.filter (fun r => r.employeeId == some emp_id)
  if block.isEmpty then
    Except.error "No monthly rows found for this employee."
  else
    let block := block.map (fun r => { r with month := month_to_canonical r.month })
    let block := sort_by_midx block
    let l14 := line_dict_from_block block "line_14"
    let l16 := line_dict_from_block block "line_16"
    let p1_vals := derive_part1_values_from_demo_row
    let plan_writes :=
      match fieldmap.lookup "part2" with
      | some p2 =>
        match p2.lookup "plan_start_month", plan_start_month with
        | some f, some p => if p != "" then set_form_text f p else []
        | _, _ => []
      | none => []
    Except.ok
      (fill_part1 fieldmap p1_vals ++ plan_writes ++
       fill_line_codes fieldmap l14 "line14" ++
       fill_line_codes fieldmap l16 "line16")

/-- The monthly summary as handed to `fill_one_employee`: the rows plus
which of the required columns the frame actually has. -/
structure SummaryFrame where
  hasEmployeeId : Bool
  hasMonth : Bool
  hasLine14 : Bool
  hasLine16 : Bool
  rows : List SummaryRow
deriving Repr

/-- `fill_one_employee` of `pdf_filler_core.py`, as the writes it
performs: Part I always, Part II only when a summary frame is supplied
(raising on missing required columns, silently skipping an employee with
no rows), plan start month last. -/
def fill_one_employee (emp_id : Int) (field_map : FieldMap)
    (demo_df : Option (List DemoRow)) (monthly_summary_df : Option SummaryFrame)
    (plan_start_month : Option String) :
    Except String (List (String × String)) :=
  let p1_vals := derive_part1_values emp_id demo_df
  let p1sec := (field_map.lookup "part1").getD []
  let p1_writes := p1_vals.flatMap (fun kv =>
    match p1sec.lookup kv.1 with
    | some f => if f != "" then set_field f kv.2 else []
    | none => [])
  let part2 : Except String (List (String × String)) :=
    match monthly_summary_df with
    | none => Except.ok []
    | some frame =>
      if !(frame.hasEmployeeId && frame.hasMonth && frame.hasLine14 && frame.hasLine16) then
        Except.error "Monthly summary missing required columns"
      else
        let block := frame.rows.filter (fun r => r.employeeId == some emp_id)
        if block.isEmpty then Except.ok []
        else
          let block := block.map (fun r => { r with month := month_to_canonical r.month })
          let block := sort_by_midx block
          let l14 := line_dict_from_block block "line_14"
          let l16 := line_dict_from_block block "line_16"
          Except.ok (fill_line_codes field_map l14 "line14" ++
                     fill_line_codes field_map l16 "line16")
  match part2 with
  | Except.error e => Except.error e
  | Except.ok line_writes =>
    let plan_writes :=
      match ((field_map.lookup "part2").getD []).lookup "plan_start_month",
            plan_start_month with
      | some f, some p => if f != "" && p != "" then set_field f (some p) else []
      | _, _ => []
    Except.ok (p1_writes ++ line_writes ++ plan_writes)

/-! ### Verification -/

/-- Eligibility record starting mid-January 2025, open-ended; concrete
input for the interval-matcher analysis. -/
def midJanRecord : EligRow :=
  ⟨1, some "PlanA", some "EMP", some ⟨2025, 1, 15⟩, some ⟨2262, 4, 11⟩⟩

/-- C1 counterexample: the mid-January record is selected for January 2025
although it does not contain the full month (its start is after the
month's first day), so "selected iff full-month containment" is false. -/
theorem overlapping_containment_cex :
    midJanRecord ∈ overlapping_elig [midJanRecord] 1
      (month_first 2025 1) (month_last 2025 1) ∧
    ¬ (optDateLe midJanRecord.start (month_first 2025 1) = true ∧
       optDateGe midJanRecord.stop (month_last 2025 1) = true) := by
  decide

/-- C1 (amended): the matcher selects a record iff the employee id matches
and the record PARTIALLY overlaps the month — `record.start ≤ month_end`
and `record.end ≥ month_start` — for eligibility and enrollment alike;
empty input yields empty output. -/
theorem overlapping_records_spec :
    (∀ (rows : List EligRow) (eid : Int) (month_start month_end : Date)
        (r : EligRow),
      r ∈ overlapping_elig rows eid month_start month_end ↔
        r ∈ rows ∧ r.employeeId = eid ∧
        optDateLe r.start month_end = true ∧
        optDateGe r.stop month_start = true) ∧
    (∀ (rows : List EnrRow) (eid : Int) (month_start month_end : Date)
        (r : EnrRow),
      r ∈ overlapping_enr rows eid month_start month_end ↔
        r ∈ rows ∧ r.employeeId = eid ∧
        optDateLe r.start month_end = true ∧
        optDateGe r.stop month_start = true) ∧
    (∀ (eid : Int) (ms me : Date),
      overlapping_elig [] eid ms me = [] ∧ overlapping_enr [] eid ms me = []) := by
  refine ⟨?_, ?_, ?_⟩
  · intro rows eid ms me r
    simp [overlapping_elig, List.mem_filter, and_assoc]
  · intro rows eid ms me r
    simp [overlapping_enr, List.mem_filter, and_assoc]
  · intro eid ms me
    exact ⟨rfl, rfl⟩

/-- C1 witness: the amended characterization applied to the concrete
record and June 2025. -/
theorem overlapping_records_spec_witness :
    midJanRecord ∈ overlapping_elig [midJanRecord] 1
      (month_first 2025 6) (month_last 2025 6) :=
  (overlapping_records_spec.1 [midJanRecord] 1 (month_first 2025 6)
    (month_last 2025 6) midJanRecord).mpr
    ⟨by decide, by decide, by decide, by decide⟩

/-- Eligibility record whose end date failed to parse (`NaT`). -/
def unparsableEndRecord : EligRow :=
  ⟨1, some "PlanA", some "EMP", some ⟨2025, 1, 1⟩, none⟩

/-- Employee for the unparsable-date scenario. -/
def c4Employee : Emp := ⟨1, none, none, none, some "FT", some ⟨2025, 1, 1⟩, none⟩

/-- C4 counterexample: a record whose END date is unparsable is NOT
excluded — after `fillna(far_future)` it matches January, whose row
reports the employee eligible. -/
theorem unparsable_end_not_excluded_cex :
    unparsableEndRecord.stop = none ∧
    ((build_interim_from_excel [c4Employee] [unparsableEndRecord] [] 2025
        true).head?.map (fun r => r.employee_eligible)) = some true := by
  decide

/-- C4 (amended): the build is total (never raises); an unparsable START
date degrades to `NaT`, which never satisfies the overlap test, so the
record is excluded from every month; an unparsable END date however is
subsequently replaced by the far-future sentinel, so the record is
treated as open-ended rather than excluded. -/
theorem unparsable_date_spec :
    (∀ (rows : List EligRow) (eid : Int) (ms me : Date) (r : EligRow),
      r.start = none → r ∉ overlapping_elig rows eid ms me) ∧
    (∀ (rows : List EnrRow) (eid : Int) (ms me : Date) (r : EnrRow),
      r.start = none → r ∉ overlapping_enr rows eid ms me) ∧
    (∀ r : EligRow, r.stop = none → (fillnaElig r).stop = some far_future) ∧
    (∀ r : EnrRow, r.stop = none → (fillnaEnr r).stop = some far_future) := by
  refine ⟨?_, ?_, ?_, ?_⟩
  · intro rows eid ms me r h hmem
    rw [overlapping_elig, List.mem_filter] at hmem
    simp [h, optDateLe] at hmem
  · intro rows eid ms me r h hmem
    rw [overlapping_enr, List.mem_filter] at hmem
    simp [h, optDateLe] at hmem
  · intro r h
    simp [fillnaElig, h]
  · intro r h
    simp [fillnaEnr, h]

/-- C4 witness: a record with an unparsable start date is not selected for
January 2025, and an unparsable end date is filled with the sentinel. -/
theorem unparsable_date_spec_witness :
    (⟨1, some "PlanA", some "EMP", none, some far_future⟩ : EligRow) ∉
      overlapping_elig [⟨1, some "PlanA", some "EMP", none, some far_future⟩] 1
        (month_first 2025 1) (month_last 2025 1) ∧
    (fillnaElig unparsableEndRecord).stop = some far_future :=
  ⟨unparsable_date_spec.1 _ 1 (month_first 2025 1) (month_last 2025 1) _ rfl,
   unparsable_date_spec.2.2.1 unparsableEndRecord rfl⟩

/-- A summary row belonging to employee 7. -/
def summaryRow7 : SummaryRow := ⟨some 7, "Jan", some "1A", some "2C"⟩

/-- A monthly summary frame with all required columns, holding only
employee 7's row. -/
def frame7 : SummaryFrame := ⟨true, true, true, true, [summaryRow7]⟩

/-- C5 counterexample: employee 5 has no rows in the supplied summary, yet
`fill_one_employee` returns a filled document (with Part II silently
skipped) instead of failing with an error. -/
theorem no_rows_still_filled_cex :
    fill_one_employee 5 [] none (some frame7) none = Except.ok [] := by
  rfl

/-- C5 (amended): of the two single-employee fill operations, only
`fill_one_employee_pdf_bytes` fails for an employee with no rows in the
monthly summary; `fill_one_employee` behaves as though no summary was
supplied at all (Part II skipped, document still returned). -/
theorem no_rows_error_spec :
    (∀ (emp_id : Int) (summary : List SummaryRow) (fieldmap : FieldMap)
        (ps : Option String),
      summary.filter (fun r => r.employeeId == some emp_id) = [] →
      fill_one_employee_pdf_bytes emp_id summary fieldmap ps =
        Except.error "No monthly rows found for this employee.") ∧
    (∀ (emp_id : Int) (fm : FieldMap) (demo : Option (List DemoRow))
        (frame : SummaryFrame) (ps : Option String),
      frame.hasEmployeeId = true → frame.hasMonth = true →
      frame.hasLine14 = true → frame.hasLine16 = true →
      frame.rows.filter (fun r => r.employeeId == some emp_id) = [] →
      fill_one_employee emp_id fm demo (some frame) ps =
        fill_one_employee emp_id fm demo none ps) := by
  constructor
  · intro emp_id summary fieldmap ps h
    simp [fill_one_employee_pdf_bytes, h]
  · intro emp_id fm demo frame ps h1 h2 h3 h4 h5
    simp [fill_one_employee, h1, h2, h3, h4, h5]

/-- C5 witness: both conjuncts applied to employee 5 against a summary
holding only employee 7. -/
theorem no_rows_error_spec_witness :
    fill_one_employee_pdf_bytes 5 [summaryRow7] [] none =
      Except.error "No monthly rows found for this employee." ∧
    fill_one_employee 5 [] none (some frame7) none =
      fill_one_employee 5 [] none none none :=
  ⟨no_rows_error_spec.1 5 [summaryRow7] [] none (by decide),
   no_rows_error_spec.2 5 [] none frame7 none rfl rfl rfl rfl (by decide)⟩

/-- A summary row whose month label is not a recognized month. -/
def bogusMonthRow : SummaryRow := ⟨some 5, "Bogus", some "1A", none⟩

/-- C8 counterexample: an unrecognized month label is not placed in the
first month's (Jan) bucket of the per-month code dictionary — the row is
dropped entirely (every bucket stays empty). -/
theorem bogus_month_dropped_cex :
    month_to_canonical "Bogus" = "Bogus" ∧
    MONTHS.contains "Bogus" = false ∧
    bogusMonthRow.line14 = some "1A" ∧
    line_dict_from_block [bogusMonthRow] "line_14" "Jan" = none ∧
    (MONTHS.map (line_dict_from_block [bogusMonthRow] "line_14")).all
      (fun o => o == none) = true := by
  decide

/-- Rows whose canonicalized month label is not in `MONTHS` never change
the accumulator of `line_dict_from_block`, whatever it currently is. -/
theorem line_dict_skips_unrecognized (col : String) (block : List SummaryRow) :
    ∀ init : String → Option String,
      block.foldl (fun out r =>
        let mo := month_to_canonical r.month
        if MONTHS.contains mo then
          (fun m => if m == mo then getSummaryCol r col else out m)
        else out) init =
      (block.filter (fun r => MONTHS.contains (month_to_canonical r.month))).foldl
        (fun out r =>
          let mo := month_to_canonical r.month
          if MONTHS.contains mo then
            (fun m => if m == mo then getSummaryCol r col else out m)
          else out) init := by
  induction block with
  | nil => intro init; rfl
  | cons r t ih =>
    intro init
    by_cases h : MONTHS.contains (month_to_canonical r.month) = true
    · simp only [List.foldl_cons, List.filter_cons, h, if_true]
      exact ih _
    · rw [Bool.not_eq_true] at h
      simp only [List.foldl_cons, List.filter_cons, h, Bool.false_eq_true,
        if_false]
      exact ih init

/-- C8 (amended): month labels are stripped and mapped through the alias
table (`Sep`/`September` → `Sept`, `Jun` → `June`); a label the alias
table does not recognize passes through unchanged; when the per-month code
dictionary is built, rows with unrecognized canonical labels are skipped
(not bucketed anywhere); only the block sort key defaults unrecognized
labels to the first month's index 0. -/
theorem month_canonicalization_spec :
    month_to_canonical "Sep" = "Sept" ∧
    month_to_canonical "September" = "Sept" ∧
    month_to_canonical "Jun" = "June" ∧
    (∀ m : String, MONTH_ALIASES.lookup (py_strip m) = none →
      month_to_canonical m = py_strip m) ∧
    (∀ (block : List SummaryRow) (col : String),
      line_dict_from_block block col =
        line_dict_from_block
          (block.filter (fun r => MONTHS.contains (month_to_canonical r.month)))
          col) ∧
    (∀ x : String, MONTHS.contains x = false → month_index x = 0) := by
  refine ⟨by decide, by decide, by decide, ?_, ?_, ?_⟩
  · intro m h
    simp [month_to_canonical, h]
  · intro block col
    rw [line_dict_from_block, line_dict_from_block]
    exact line_dict_skips_unrecognized col block _
  · intro x h
    simp [month_index, h]
    intro hmem
    exact absurd hmem (by simpa using h)

/-- C8 witness: the unrecognized label "Bogus" passes through
canonicalization unchanged and gets sort index 0. -/
theorem month_canonicalization_spec_witness :
    month_to_canonical "Bogus" = py_strip "Bogus" ∧ month_index "Nope" = 0 :=
  ⟨month_canonicalization_spec.2.2.2.1 "Bogus" (by decide),
   month_canonicalization_spec.2.2.2.2.2 "Nope" (by decide)⟩

/-- C6: with exclude-waived enabled, exactly the rows whose plan code
contains "Waive" (any case) are dropped from the eligibility and
enrollment tables before the build; consequently, an employee all of
whose eligibility rows are waived (in particular one whose sole row for a
month was waived) gets all-false eligibility flags for every month. -/
theorem exclude_waived_spec :
    (∀ (rows : List EligRow) (r : EligRow),
      r ∈ drop_waived_elig rows ↔ r ∈ rows ∧ waived_plan r.plan = false) ∧
    (∀ (rows : List EnrRow) (r : EnrRow),
      r ∈ drop_waived_enr rows ↔ r ∈ rows ∧ waived_plan r.plan = false) ∧
    (∀ (eligs : List EligRow) (enrs : List EnrRow) (year : Nat) (e : Emp)
        (m : Nat),
      (∀ r ∈ eligs, r.employeeId = e.employeeId → waived_plan r.plan = true) →
      (mkRow (prep_eligs true eligs) (prep_enrs true enrs) year e m).eligible_mv
          = false ∧
      (mkRow (prep_eligs true eligs) (prep_enrs true enrs) year e
          m).employee_eligible = false ∧
      (mkRow (prep_eligs true eligs) (prep_enrs true enrs) year e
          m).spouse_eligible = false ∧
      (mkRow (prep_eligs true eligs) (prep_enrs true enrs) year e
          m).child_eligible = false) := by
  refine ⟨?_, ?_, ?_⟩
  · intro rows r
    simp [drop_waived_elig, List.mem_filter]
  · intro rows r
    simp [drop_waived_enr, List.mem_filter]
  · intro eligs enrs year e m hw
    have hnil : overlapping_elig (prep_eligs true eligs) e.employeeId
        (month_first year m) (month_last year m) = [] := by
      rw [List.eq_nil_iff_forall_not_mem]
      intro r hr
      simp [overlapping_elig, List.mem_filter, prep_eligs,
        drop_waived_elig, List.mem_map] at hr
      obtain ⟨⟨r0, hr0, hr0e⟩, ⟨⟨hid, _⟩, _⟩, hnw⟩ := hr
      have hpl : r.plan = r0.plan := by rw [← hr0e]; rfl
      have hideq : r.employeeId = r0.employeeId := by rw [← hr0e]; rfl
      have hwv := hw r0 hr0 (by rw [← hideq]; exact hid)
      rw [hpl, hwv] at hnw
      simp at hnw
    simp only [mkRow, hnil]
    exact ⟨rfl, rfl, rfl, rfl⟩

/-- C6 witness: a sole waived eligibility row leaves all four eligibility
flags false for January 2025. -/
theorem exclude_waived_spec_witness :
    (mkRow (prep_eligs true [⟨1, some "Waived - Opt Out", some "EMP",
        some ⟨2025, 1, 1⟩, none⟩]) (prep_enrs true []) 2025
      ⟨1, none, none, none, some "FT", some ⟨2025, 1, 1⟩, some far_future⟩
      1).eligible_mv = false :=
  (exclude_waived_spec.2.2 [⟨1, some "Waived - Opt Out", some "EMP",
      some ⟨2025, 1, 1⟩, none⟩] [] 2025
    ⟨1, none, none, none, some "FT", some ⟨2025, 1, 1⟩, some far_future⟩ 1
    (by intro r hr _; simp at hr; rw [hr]; decide)).1

/-- C7: `employed_full_month` holds iff the status interval start is on or
before the month's first day and the (sentinel-filled) status end is on or
after the month's last day, with the last day leap-year-correct for
February; the full-time and part-time flags conjoin it with the role
test. -/
theorem employed_full_month_spec (e : Emp) (eligs : List EligRow)
    (enrs : List EnrRow) (year m : Nat) (s : Date)
    (hs : e.statusStart = some s) :
    ((mkRow eligs enrs year (fillnaEmp e) m).isEmployedFullMonth = "Yes" ↔
      (dateLe s (month_first year m) = true ∧
       dateLe (month_last year m) (e.statusStop.getD far_future) = true)) ∧
    ((mkRow eligs enrs year (fillnaEmp e) m).isFullTimeFullMonth = "Yes" ↔
      ((mkRow eligs enrs year (fillnaEmp e) m).isEmployedFullMonth = "Yes" ∧
       e.role = some "FT")) ∧
    ((mkRow eligs enrs year (fillnaEmp e) m).isPartTimeFullMonth = "Yes" ↔
      ((mkRow eligs enrs year (fillnaEmp e) m).isEmployedFullMonth = "Yes" ∧
       e.role = some "PT")) ∧
    (month_last year 2).d =
      (if year % 4 = 0 ∧ (year % 100 ≠ 0 ∨ year % 400 = 0) then 29 else 28) := by
  have yesno : ∀ (p : Prop) (inst : Decidable p),
      ((if p then "Yes" else "No") = "Yes") ↔ p := by
    intro p inst
    by_cases h : p <;> simp [h]
  refine ⟨?_, ?_, ?_, ?_⟩
  · simp only [mkRow, fillnaEmp, hs, optDateLe, optDateGe, yesno,
      Bool.and_eq_true]
  · simp only [mkRow, fillnaEmp, hs, optDateLe, optDateGe, yesno,
      Bool.and_eq_true, beq_iff_eq]
    tauto
  · simp only [mkRow, fillnaEmp, hs, optDateLe, optDateGe, yesno,
      Bool.and_eq_true, beq_iff_eq]
    tauto
  · simp only [month_last, daysInMonth, isLeapYear]
    by_cases h4 : year % 4 = 0 <;> by_cases h100 : year % 100 = 0 <;>
      by_cases h400 : year % 400 = 0 <;>
        simp [h4, h100, h400]

/-- C7 witness: the characterization applied to a concrete employee and
February of the leap year 2024. -/
theorem employed_full_month_spec_witness :
    (mkRow [] [] 2024 (fillnaEmp c4Employee) 2).isEmployedFullMonth = "Yes" ↔
      (dateLe ⟨2025, 1, 1⟩ (month_first 2024 2) = true ∧
       dateLe (month_last 2024 2) (c4Employee.statusStop.getD far_future) = true) :=
  (employed_full_month_spec c4Employee [] [] 2024 2 ⟨2025, 1, 1⟩ rfl).1

/-- A nonempty list's set of values is `{a}` exactly when every element is
`a`. -/
theorem list_toFinset_eq_singleton_iff (l : List String) (a : String)
    (h : l ≠ []) : l.toFinset = {a} ↔ ∀ x ∈ l, x = a := by
  constructor
  · intro he x hx
    have hxf : x ∈ l.toFinset := List.mem_toFinset.mpr hx
    rw [he] at hxf
    exact Finset.mem_singleton.mp hxf
  · intro ha
    apply Finset.eq_singleton_iff_unique_mem.mpr
    obtain ⟨x0, hx0⟩ := List.exists_mem_of_ne_nil l h
    constructor
    · rw [← ha x0 hx0]
      exact List.mem_toFinset.mpr hx0
    · intro b hb
      exact ha b (List.mem_toFinset.mp hb)

/-- A list's value set meets a finite set iff some element lies in it. -/
theorem inter_nonempty_iff_exists_mem_list (l : List String)
    (S : Finset String) : (l.toFinset ∩ S).Nonempty ↔ ∃ t ∈ l, t ∈ S := by
  simp [Finset.Nonempty, Finset.mem_inter, List.mem_toFinset]

/-- C2: the seven classifier flags, characterized over the pooled sets of
distinct plan and tier codes of the overlapping records; all default to
false on an empty record set. -/
theorem classifier_flags_spec (eligRows : List EligRow) (enrRows : List EnrRow)
    (h1 : eligRows ≠ []) (h2 : enrRows ≠ []) :
    (eligible_mv_flag eligRows = true ↔
      ((elig_plans eligRows).toFinset = {"PlanA"} ∧
       ((elig_tiers eligRows).toFinset ∩
        ({"EMPFAM", "EMP", "EMPCHILD", "EMPSPOUSE"} : Finset String)).Nonempty)) ∧
    (employee_eligible_flag eligRows = true ↔
      ((elig_tiers eligRows).toFinset ∩
        ({"EMP", "EMPFAM", "EMPSPOUSE"} : Finset String)).Nonempty) ∧
    (spouse_eligible_flag eligRows = true ↔
      ((elig_tiers eligRows).toFinset ∩
        ({"EMPFAM", "EMPSPOUSE"} : Finset String)).Nonempty) ∧
    (child_eligible_flag eligRows = true ↔
      "EMPFAM" ∈ (elig_tiers eligRows).toFinset) ∧
    (employee_enrolled_flag enrRows = true ↔
      ((enr_tiers enrRows).toFinset ∩
        ({"EMP", "EMPFAM", "EMPSPOUSE"} : Finset String)).Nonempty) ∧
    (spouse_enrolled_flag enrRows = true ↔
      ((enr_tiers enrRows).toFinset ∩
        ({"EMPFAM", "EMPSPOUSE"} : Finset String)).Nonempty) ∧
    (child_enrolled_flag enrRows = true ↔
      "EMPFAM" ∈ (enr_tiers enrRows).toFinset) ∧
    (eligible_mv_flag [] = false ∧ employee_eligible_flag [] = false ∧
     spouse_eligible_flag [] = false ∧ child_eligible_flag [] = false ∧
     employee_enrolled_flag [] = false ∧ spouse_enrolled_flag [] = false ∧
     child_enrolled_flag [] = false) := by
  have hne1 : eligRows.isEmpty = false := by
    cases eligRows with
    | nil => exact absurd rfl h1
    | cons a t => rfl
  have hne2 : enrRows.isEmpty = false := by
    cases enrRows with
    | nil => exact absurd rfl h2
    | cons a t => rfl
  have hpl : elig_plans eligRows ≠ [] := by
    simpa [elig_plans] using h1
  refine ⟨?_, ?_, ?_, ?_, ?_, ?_, ?_,
    ⟨rfl, rfl, rfl, rfl, rfl, rfl, rfl⟩⟩
  · rw [list_toFinset_eq_singleton_iff _ _ hpl,
      inter_nonempty_iff_exists_mem_list]
    simp [eligible_mv_flag, hne1, List.all_eq_true, List.any_eq_true]
    intro _
    constructor <;> (rintro ⟨x, hx, hor⟩; exact ⟨x, hx, by tauto⟩)
  · rw [inter_nonempty_iff_exists_mem_list]
    simp [employee_eligible_flag, hne1, List.any_eq_true]
    constructor <;> (rintro ⟨x, hx, hor⟩; exact ⟨x, hx, by tauto⟩)
  · rw [inter_nonempty_iff_exists_mem_list]
    simp [spouse_eligible_flag, hne1, List.any_eq_true]
  · rw [List.mem_toFinset]
    simp [child_eligible_flag, hne1, List.any_eq_true]
  · rw [inter_nonempty_iff_exists_mem_list]
    simp [employee_enrolled_flag, hne2, List.any_eq_true]
    constructor <;> (rintro ⟨x, hx, hor⟩; exact ⟨x, hx, by tauto⟩)
  · rw [inter_nonempty_iff_exists_mem_list]
    simp [spouse_enrolled_flag, hne2, List.any_eq_true]
  · rw [List.mem_toFinset]
    simp [child_enrolled_flag, hne2, List.any_eq_true]

/-- C2 witness: the flag characterizations applied to one PlanA/EMPFAM
eligibility record and one EMP enrollment record. -/
theorem classifier_flags_spec_witness :
    child_eligible_flag [⟨1, some "PlanA", some "EMPFAM", none, none⟩] = true ∧
    employee_enrolled_flag [⟨1, some "PlanA", some "EMP", none, none⟩] = true :=
  ⟨(classifier_flags_spec [⟨1, some "PlanA", some "EMPFAM", none, none⟩]
      [⟨1, some "PlanA", some "EMP", none, none⟩] (by simp) (by simp)).2.2.2.1.mpr
      (by decide),
   (classifier_flags_spec [⟨1, some "PlanA", some "EMPFAM", none, none⟩]
      [⟨1, some "PlanA", some "EMP", none, none⟩] (by simp) (by simp)).2.2.2.2.1.mpr
      (by decide)⟩

/-- A successful association-list lookup comes from a member pair. -/
theorem lookup_mem (l : List (String × String)) (k v : String)
    (h : l.lookup k = some v) : (k, v) ∈ l := by
  induction l with
  | nil => simp [List.lookup] at h
  | cons p t ih =>
    obtain ⟨a, b⟩ := p
    rw [List.lookup] at h
    by_cases hk : k == a
    · simp [hk] at h
      simp [beq_iff_eq] at hk
      simp [hk, h]
    · simp [hk] at h
      exact List.mem_cons_of_mem _ (ih h)

/-- `filterMap id` keeps the length of a list of non-`none` options. -/
theorem filterMap_id_length (l : List (Option String))
    (h : ∀ o ∈ l, o.isSome) : (l.filterMap id).length = l.length := by
  induction l with
  | nil => rfl
  | cons o t ih =>
    cases o with
    | none => exact absurd (h none (List.mem_cons_self _ _)) (by simp)
    | some v =>
      simp only [List.filterMap_cons, id, List.length_cons]
      rw [ih (fun o ho => h o (List.mem_cons_of_mem _ ho))]

/-- When every month carries the same non-blank code, `all_12_same`
returns it. -/
theorem all_12_same_const (codes : String → Option String) (c : String)
    (hc : py_strip c ≠ "") (h : ∀ m ∈ MONTHS, codes m = some c) :
    all_12_same codes = some c := by
  have e1 := h "Jan" (by decide)
  have e2 := h "Feb" (by decide)
  have e3 := h "Mar" (by decide)
  have e4 := h "Apr" (by decide)
  have e5 := h "May" (by decide)
  have e6 := h "June" (by decide)
  have e7 := h "July" (by decide)
  have e8 := h "Aug" (by decide)
  have e9 := h "Sept" (by decide)
  have e10 := h "Oct" (by decide)
  have e11 := h "Nov" (by decide)
  have e12 := h "Dec" (by decide)
  simp [all_12_same, MONTHS, e1, e2, e3, e4, e5, e6, e7, e8, e9, e10, e11, e12,
    py_nonblank, hc]

/-- A blank month, or two distinct non-blank codes, defeat
`all_12_same`. -/
theorem all_12_same_none (codes : String → Option String)
    (h : (∃ m ∈ MONTHS, py_nonblank (codes m) = false) ∨
         (∃ m ∈ MONTHS, ∃ n ∈ MONTHS, py_nonblank (codes m) = true ∧
           py_nonblank (codes n) = true ∧ codes m ≠ codes n)) :
    all_12_same codes = none := by
  have hdef : all_12_same codes =
      (match ((MONTHS.map codes).filter py_nonblank).filterMap id with
        | [] => none
        | v :: rest =>
          if rest.length == 11 && rest.all (fun x => x == v) then some v
          else none) := rfl
  rcases h with ⟨m, hm, hblank⟩ | ⟨m, hm, n, hn, hbm, hbn, hne⟩
  · have hfl : ((MONTHS.map codes).filter py_nonblank).length <
        (MONTHS.map codes).length := by
      apply List.length_filter_lt_length_iff_exists.mpr
      exact ⟨codes m, List.mem_map_of_mem codes hm, by simp [hblank]⟩
    have hml : (MONTHS.map codes).length = 12 := by simp [MONTHS]
    have hfm : (((MONTHS.map codes).filter py_nonblank).filterMap id).length =
        ((MONTHS.map codes).filter py_nonblank).length := by
      apply filterMap_id_length
      intro o ho
      have := List.of_mem_filter ho
      cases o with
      | none => simp [py_nonblank] at this
      | some v => simp
    rw [hdef]
    cases hvv : ((MONTHS.map codes).filter py_nonblank).filterMap id with
    | nil => rfl
    | cons v rest =>
      have : rest.length ≠ 11 := by
        have := hvv ▸ hfm
        simp at this
        omega
      simp [this]
  · obtain ⟨c1, hc1, hb1⟩ : ∃ c1, codes m = some c1 ∧ py_nonblank (some c1) = true := by
      cases hcm : codes m with
      | none => rw [hcm] at hbm; simp [py_nonblank] at hbm
      | some s => exact ⟨s, rfl, by rw [← hcm]; exact hbm⟩
    obtain ⟨c2, hc2, hb2⟩ : ∃ c2, codes n = some c2 ∧ py_nonblank (some c2) = true := by
      cases hcn : codes n with
      | none => rw [hcn] at hbn; simp [py_nonblank] at hbn
      | some s => exact ⟨s, rfl, by rw [← hcn]; exact hbn⟩
    have hcc : c1 ≠ c2 := by
      intro he
      rw [hc1, hc2, he] at hne
      exact hne rfl
    have hmem1 : c1 ∈ ((MONTHS.map codes).filter py_nonblank).filterMap id := by
      apply List.mem_filterMap.mpr
      refine ⟨some c1, ?_, rfl⟩
      apply List.mem_filter.mpr
      exact ⟨by rw [← hc1]; exact List.mem_map_of_mem codes hm, hb1⟩
    have hmem2 : c2 ∈ ((MONTHS.map codes).filter py_nonblank).filterMap id := by
      apply List.mem_filterMap.mpr
      refine ⟨some c2, ?_, rfl⟩
      apply List.mem_filter.mpr
      exact ⟨by rw [← hc2]; exact List.mem_map_of_mem codes hn, hb2⟩
    rw [hdef]
    cases hvv : ((MONTHS.map codes).filter py_nonblank).filterMap id with
    | nil => rfl
    | cons v rest =>
      rw [hvv] at hmem1 hmem2
      by_cases hcond : (rest.length == 11 && rest.all (fun x => x == v)) = true
      · exfalso
        rw [Bool.and_eq_true] at hcond
        have hallv : ∀ x ∈ v :: rest, x = v := by
          intro x hx
          rcases List.mem_cons.mp hx with hx | hx
          · exact hx
          · have := (List.all_eq_true.mp hcond.2) x hx
            simpa using this
        exact hcc ((hallv c1 hmem1).trans (hallv c2 hmem2).symm)
      · rw [Bool.not_eq_true] at hcond
        simp [hcond]

/-- With non-empty field names, the per-month guarded writes are exactly
one write per mapped month. -/
theorem writes_eq (ms : List String) (sect : List (String × String))
    (hfields : ∀ p ∈ sect, p.2 ≠ "") (val : String → String) :
    (ms.flatMap (fun m => match sect.lookup m with
      | some f => set_form_text f (val m)
      | none => [])) =
    ms.filterMap (fun m => (sect.lookup m).map (fun f => (f, val m))) := by
  induction ms with
  | nil => rfl
  | cons m t ih =>
    rw [List.flatMap_cons, List.filterMap_cons]
    cases hl : sect.lookup m with
    | none => simpa using ih
    | some f =>
      have hf : f ≠ "" := hfields (m, f) (lookup_mem sect m f hl)
      simp only [Option.map_some]
      rw [set_form_text, if_neg (by simpa using hf)]
      simpa using ih

/-- C3: for a line section that maps an `all` field (with real,
non-empty field names): if all 12 months carry the same non-blank code,
the writes are that code into the `all` field and `""` into every mapped
month field; otherwise each mapped month field receives its own code (or
`""` when absent); an empty or missing section produces no writes. -/
theorem fill_line_codes_agg_spec (fieldmap : FieldMap)
    (sect : List (String × String)) (codes : String → Option String)
    (which : String) (fAll : String)
    (hsec : fieldmap.lookup which = some sect)
    (hall : sect.lookup "all" = some fAll)
    (hfields : ∀ p ∈ sect, p.2 ≠ "") :
    (∀ c, py_strip c ≠ "" → (∀ m ∈ MONTHS, codes m = some c) →
      fill_line_codes fieldmap codes which =
        (fAll, c) :: MONTHS.filterMap
          (fun m => (sect.lookup m).map (fun f => (f, "")))) ∧
    (((∃ m ∈ MONTHS, py_nonblank (codes m) = false) ∨
      (∃ m ∈ MONTHS, ∃ n ∈ MONTHS, py_nonblank (codes m) = true ∧
        py_nonblank (codes n) = true ∧ codes m ≠ codes n)) →
      fill_line_codes fieldmap codes which =
        MONTHS.filterMap
          (fun m => (sect.lookup m).map (fun f => (f, (codes m).getD "")))) ∧
    (∀ (fm : FieldMap) (cds : String → Option String) (w : String),
      (fm.lookup w).getD [] = [] → fill_line_codes fm cds w = []) := by
  have hne : sect.isEmpty = false := by
    cases sect with
    | nil => simp [List.lookup] at hall
    | cons p t => rfl
  have hfa : fAll ≠ "" := hfields ("all", fAll) (lookup_mem sect "all" fAll hall)
  refine ⟨?_, ?_, ?_⟩
  · intro c hc hcodes
    have hsame := all_12_same_const codes c hc hcodes
    have hc' : c ≠ "" := by
      intro he
      rw [he] at hc
      exact hc (by decide)
    rw [fill_line_codes, hsec]
    simp only [Option.getD_some, hne, Bool.false_eq_true, if_false, hsame,
      hall, pyTruthy, Option.isSome_some, Bool.and_true, hc',
      bne_iff_ne, ne_eq, not_false_eq_true, if_true, Option.getD_some]
    rw [writes_eq MONTHS sect hfields (fun _ => "")]
    rw [set_form_text, if_neg (by simpa using hfa)]
    simp
  · intro h
    have hsame := all_12_same_none codes h
    rw [fill_line_codes, hsec]
    simp only [Option.getD_some, hne, Bool.false_eq_true, if_false, hsame,
      pyTruthy, Bool.false_and, if_false]
    exact writes_eq MONTHS sect hfields (fun m => (codes m).getD "")
  · intro fm cds w hw
    rw [fill_line_codes, hw]
    rfl

/-- C3 witness: twelve identical "1A" codes collapse into the `all`
field. -/
theorem fill_line_codes_agg_spec_witness :
    fill_line_codes [("line14", [("all", "a14"), ("Jan", "j14")])]
      (fun _ => some "1A") "line14" =
      ("a14", "1A") :: MONTHS.filterMap
        (fun m => (([("all", "a14"), ("Jan", "j14")] :
          List (String × String)).lookup m).map (fun f => (f, ""))) :=
  (fill_line_codes_agg_spec [("line14", [("all", "a14"), ("Jan", "j14")])]
    [("all", "a14"), ("Jan", "j14")] (fun _ => some "1A") "line14" "a14"
    rfl rfl (by decide)).1 "1A" (by decide) (fun m _ => rfl)

/-- Element lookup in a flat map whose pieces all have length 12. -/
theorem flatMap_getElem (es : List Emp) (f : Emp → List InterimRow)
    (h12 : ∀ a, (f a).length = 12) :
    ∀ (i j : Nat), j < 12 →
      (es.flatMap f)[12 * i + j]? = (es[i]?).bind (fun e => (f e)[j]?) := by
  induction es with
  | nil =>
    intro i j hj
    simp
  | cons a t ih =>
    intro i j hj
    rw [List.flatMap_cons]
    cases i with
    | zero =>
      have hlt : 12 * 0 + j < (f a).length := by
        rw [h12]
        omega
      rw [List.getElem?_append, if_pos hlt]
      simp
    | succ i' =>
      have hge : (f a).length ≤ 12 * (i' + 1) + j := by
        rw [h12]
        omega
      rw [List.getElem?_append_right hge, h12]
      have harith : 12 * (i' + 1) + j - 12 = 12 * i' + j := by omega
      rw [harith, ih i' j hj]
      simp

/-- A flat map whose pieces all have length 12 has 12 rows per element. -/
theorem flatMap_length_const (es : List Emp) (f : Emp → List InterimRow)
    (h12 : ∀ a, (f a).length = 12) : (es.flatMap f).length = 12 * es.length := by
  induction es with
  | nil => rfl
  | cons a t ih =>
    simp only [List.flatMap_cons, List.length_append, List.length_cons, h12, ih]
    ring

/-- C9: the builder is a pure (hence deterministic) function — building
twice yields the same rows in the same order — and emits exactly one row
per (employee, month): employees in source-table order as the outer loop,
months 1..12 as the inner loop, row `12*i + j` belonging to employee `i`
and month `j+1`. -/
theorem build_interim_deterministic_ordered (emps : List Emp)
    (eligs : List EligRow) (enrs : List EnrRow) (year : Nat) (excl : Bool) :
    build_interim_from_excel emps eligs enrs year excl =
      build_interim_from_excel emps eligs enrs year excl ∧
    (build_interim_from_excel emps eligs enrs year excl).length =
      12 * emps.length ∧
    (∀ (i j : Nat) (e : Emp), emps[i]? = some e → j < 12 →
      (build_interim_from_excel emps eligs enrs year excl)[12 * i + j]? =
        some (mkRow (prep_eligs excl eligs) (prep_enrs excl enrs) year
          (fillnaEmp e) (j + 1))) := by
  have h12 : ∀ a : Emp, ((monthsList.map (mkRow (prep_eligs excl eligs)
      (prep_enrs excl enrs) year a)).length = 12) := by
    intro a
    simp [monthsList]
  refine ⟨rfl, ?_, ?_⟩
  · rw [build_interim_from_excel]
    rw [flatMap_length_const _ _ h12]
    simp
  · intro i j e hi hj
    rw [build_interim_from_excel]
    rw [flatMap_getElem _ _ h12 i j hj]
    rw [List.getElem?_map, hi]
    simp only [Option.map_some, Option.bind_some, List.getElem?_map]
    have hmj : monthsList[j]? = some (j + 1) := by
      interval_cases j <;> rfl
    rw [hmj]
    rfl

/-- C9 witness: in a one-employee build, row `12*0+1` is that employee's
February row. -/
theorem build_interim_ordered_witness :
    (build_interim_from_excel [c4Employee] [] [] 2025 true)[12 * 0 + 1]? =
      some (mkRow (prep_eligs true []) (prep_enrs true []) 2025
        (fillnaEmp c4Employee) 2) :=
  (build_interim_deterministic_ordered [c4Employee] [] [] 2025 true).2.2 0 1
    c4Employee rfl (by omega)

/-- An `EMPFAM` hit also hits the spouse tier set. -/
theorem child_mono_spouse_elig (rows : List EligRow) :
    child_eligible_flag rows = true → spouse_eligible_flag rows = true := by
  simp only [child_eligible_flag, spouse_eligible_flag, Bool.and_eq_true,
    List.any_eq_true]
  rintro ⟨hne, t, ht, hv⟩
  exact ⟨hne, t, ht, by simp at hv ⊢; tauto⟩

/-- A spouse-tier hit also hits the employee tier set. -/
theorem spouse_mono_employee_elig (rows : List EligRow) :
    spouse_eligible_flag rows = true → employee_eligible_flag rows = true := by
  simp only [spouse_eligible_flag, employee_eligible_flag, Bool.and_eq_true,
    List.any_eq_true]
  rintro ⟨hne, t, ht, hv⟩
  exact ⟨hne, t, ht, by simp at hv ⊢; tauto⟩

/-- An `EMPFAM` hit also hits the spouse tier set (enrollment). -/
theorem child_mono_spouse_enr (rows : List EnrRow) :
    child_enrolled_flag rows = true → spouse_enrolled_flag rows = true := by
  simp only [child_enrolled_flag, spouse_enrolled_flag, Bool.and_eq_true,
    List.any_eq_true]
  rintro ⟨hne, t, ht, hv⟩
  exact ⟨hne, t, ht, by simp at hv ⊢; tauto⟩

/-- A spouse-tier hit also hits the employee tier set (enrollment). -/
theorem spouse_mono_employee_enr (rows : List EnrRow) :
    spouse_enrolled_flag rows = true → employee_enrolled_flag rows = true := by
  simp only [spouse_enrolled_flag, employee_enrolled_flag, Bool.and_eq_true,
    List.any_eq_true]
  rintro ⟨hne, t, ht, hv⟩
  exact ⟨hne, t, ht, by simp at hv ⊢; tauto⟩

/-- C10: in every row the builder produces, the family-tier flags form
monotone implication chains: child implies spouse implies employee, both
for eligibility and enrollment. -/
theorem interim_flags_monotone (emps : List Emp) (eligs : List EligRow)
    (enrs : List EnrRow) (year : Nat) (excl : Bool) (row : InterimRow)
    (hrow : row ∈ build_interim_from_excel emps eligs enrs year excl) :
    (row.child_eligible = true → row.spouse_eligible = true) ∧
    (row.spouse_eligible = true → row.employee_eligible = true) ∧
    (row.child_enrolled = true → row.spouse_enrolled = true) ∧
    (row.spouse_enrolled = true → row.employee_enrolled = true) := by
  rw [build_interim_from_excel] at hrow
  simp only [List.mem_flatMap, List.mem_map] at hrow
  obtain ⟨e, he, m, hm, hrw⟩ := hrow
  rw [← hrw]
  simp only [mkRow]
  exact ⟨child_mono_spouse_elig _, spouse_mono_employee_elig _,
    child_mono_spouse_enr _, spouse_mono_employee_enr _⟩

/-- Eligibility record with the EMPFAM tier, open-ended through 2025. -/
def empfamRecord : EligRow :=
  ⟨1, some "PlanA", some "EMPFAM", some ⟨2025, 1, 1⟩, some far_future⟩

/-- C10 witness: in the January row of a concrete build the child flag is
true, so by the chain the spouse flag is true as well. -/
theorem interim_flags_monotone_witness :
    (mkRow (prep_eligs true [empfamRecord]) (prep_enrs true []) 2025
      (fillnaEmp c4Employee) 1).spouse_eligible = true :=
  (interim_flags_monotone [c4Employee] [empfamRecord] [] 2025 true
    (mkRow (prep_eligs true [empfamRecord]) (prep_enrs true []) 2025
      (fillnaEmp c4Employee) 1) (by decide)).1 (by decide)
